import Mathlib

/-!
Shallow embedding of the Time Zone Meeting Planner
(`src/marcel_streamlit.py`) and proofs about its two core components:
the country-to-timezone resolver `get_timezone` and the overlap
calculator `find_best_talk_time`.

Modelling conventions:
* A loaded `pandas.DataFrame` is `Option (List CountryRecord)`:
  `some recs` is a frame that has the `name`/`timezones` columns (what a
  successful `pd.read_csv` yields, possibly with zero rows), while `none`
  is a frame without those columns — what `pd.DataFrame()` yields on the
  failure path of `load_country_data`, where a later column access
  `countries_data['name']` raises `KeyError('name')`.
* `pandas.Series.str.contains(pat, case=False, na=False)` is modelled as
  case-insensitive containment of the pattern in the name, i.e. the
  behaviour of the call for literal patterns (patterns without regex
  metacharacters; pandas treats the pattern as a regular expression).
* Python exceptions become the `Except PyError` monad result.
* A pytz timezone is modelled by its fixed UTC offset in minutes at the
  single reference date used by the program (`datetime.now()`), and the
  reference date itself by its day index `d`, so the naive wall-clock
  instant `d 00:00` is minute `d * 1440` and `tz.localize(...)` followed
  by `.astimezone(pytz.UTC)` of the wall time `h:00` on day `d` in a zone
  of offset `off` is the UTC minute `d * 1440 + h * 60 - off`.
* `strftime('%H:%M')` is the zero-padded two-digit rendering of the
  hour-of-day and minute-of-hour of an instant.
-/

/-- A row of `countries_data.csv` as the program uses it: the country
display name and the parsed value of the serialized `timezones` list
field (the code takes `eval(row['timezones'])`). -/
structure CountryRecord where
  name : String
  timezones : List String
deriving DecidableEq

/-- The Python exceptions that the resolver path can raise: `ValueError`
(the NotFoundError of the spec, raised on line 36), `KeyError` (raised by
a column access on a frame without that column), and `IndexError`
(raised by `[0]` on an empty list on line 39). -/
inductive PyError where
  | valueError (msg : String)
  | keyError (key : String)
  | indexError (idx : Nat)
deriving DecidableEq

/-- Case-insensitive substring containment: the matching notion of the
spec's resolver contract, and the behaviour of the line-34
`series.str.contains(country_name, case=False, na=False)` filter for
literal patterns. The code's filter actually compiles the query as a
regular expression (`regex=True` is the pandas default); `reSearch`
below models that semantics on the literal-and-dot pattern fragment,
and the two agree on metacharacter-free patterns (`reSearch_literal`). -/
def containsCI (name country_name : String) : Bool :=
  decide (country_name.data.map Char.toLower <:+: name.data.map Char.toLower)

/-- The `utc_to_iana` dict of `get_timezone` (lines 42–70 of
`marcel_streamlit.py`), in insertion order, which is the iteration order
of the `for` loop on line 72. -/
def utc_to_iana : List (String × String) := [
  ("UTC+00:00", "UTC"),
  ("UTC+01:00", "Europe/Paris"),
  ("UTC+02:00", "Europe/Kiev"),
  ("UTC+03:00", "Europe/Moscow"),
  ("UTC+04:00", "Asia/Dubai"),
  ("UTC+05:00", "Asia/Karachi"),
  ("UTC+05:30", "Asia/Kolkata"),
  ("UTC+06:00", "Asia/Dhaka"),
  ("UTC+07:00", "Asia/Bangkok"),
  ("UTC+08:00", "Asia/Shanghai"),
  ("UTC+09:00", "Asia/Tokyo"),
  ("UTC+09:30", "Australia/Darwin"),
  ("UTC+10:00", "Australia/Sydney"),
  ("UTC+11:00", "Pacific/Noumea"),
  ("UTC+12:00", "Pacific/Auckland"),
  ("UTC-01:00", "Atlantic/Azores"),
  ("UTC-02:00", "America/Noronha"),
  ("UTC-03:00", "America/Sao_Paulo"),
  ("UTC-04:00", "America/New_York"),
  ("UTC-05:00", "America/Chicago"),
  ("UTC-06:00", "America/Denver"),
  ("UTC-07:00", "America/Phoenix"),
  ("UTC-08:00", "America/Los_Angeles"),
  ("UTC-09:00", "America/Anchorage"),
  ("UTC-10:00", "Pacific/Honolulu"),
  ("UTC-11:00", "Pacific/Midway"),
  ("UTC-12:00", "Pacific/Wake")]

/-- Python's `timezone.startswith(utc_offset)` on line 73. -/
def startswith (s p : String) : Bool :=
  p.data.isPrefixOf s.data

/-- The `for utc_offset, iana_zone in utc_to_iana.items()` loop of lines
72–74: the first key the label starts with wins; `none` when no key
matches (the loop falls through to `return timezone`). -/
def lookupOffset : List (String × String) → String → Option String
  | [], _ => none
  | (k, z) :: rest, tz => if startswith tz k then some z else lookupOffset rest tz

/-- `load_country_data` (lines 19–26): a successful `pd.read_csv` returns
the frame with its columns; on any exception the function returns
`pd.DataFrame()`, a frame without the `name`/`timezones` columns,
modelled as `none`. -/
def load_country_data (read_csv_result : Option (List CountryRecord)) :
    Option (List CountryRecord) :=
  match read_csv_result with
  | some recs => some recs
  | none => none

/-- The message of the `ValueError` raised on line 36. -/
def not_found_message (country_name : String) : String :=
  "Country '" ++ country_name ++ "' not found in the dataset."

/-- `get_timezone` (lines 30–76). On a frame without a `name` column
(failed load) the boolean-mask expression itself raises
`KeyError('name')`. Otherwise the rows whose name contains the query
case-insensitively are kept; an empty selection raises the `ValueError`
of line 36; otherwise the first row's first timezone label is looked up
in `utc_to_iana` by the starts-with scan, falling back to the raw
label. -/
def get_timezone (countries_data : Option (List CountryRecord))
    (country_name : String) : Except PyError String :=
  match countries_data with
  | none => Except.error (PyError.keyError "name")
  | some recs =>
    match recs.filter (fun r => containsCI r.name country_name) with
    | [] => Except.error (PyError.valueError (not_found_message country_name))
    | r :: _ =>
      match r.timezones with
      | [] => Except.error (PyError.indexError 0)
      | tz :: _ => Except.ok ((lookupOffset utc_to_iana tz).getD tz)

deriving instance DecidableEq for Except

/-- Whether a resolver outcome is the NotFoundError of the spec (the
`ValueError` of line 36 — the only `ValueError` the function raises). -/
def is_not_found : Except PyError String → Bool
  | Except.error (PyError.valueError _) => true
  | _ => false

/-- The result dict of `find_best_talk_time`: either
`{'status': 'success', 'country1_time': …, 'country2_time': …,
'utc_time': …}` or `{'status': 'error', 'message': …}`. -/
inductive OverlapResult where
  | success (country1_time country2_time utc_time : String)
  | error (message : String)
deriving DecidableEq

/-- The fixed advisory message of the no-overlap branch (line 122). -/
def no_overlap_message : String :=
  "There's no common awake time today. Consider adjusting schedules."

/-- Two-digit zero-padded decimal rendering, as `strftime` pads `%H` and
`%M`. -/
def pad2 (n : Nat) : String :=
  if n < 10 then "0" ++ toString n else toString n

/-- `instant.strftime('%H:%M')` for an instant given in minutes:
hour-of-day and minute-of-hour of the remainder modulo one day. -/
def fmtHM (m : Int) : String :=
  pad2 ((m.emod 1440).toNat / 60) ++ ":" ++ pad2 ((m.emod 1440).toNat % 60)

/-- The `f"{start.strftime('%H:%M')} to {end.strftime('%H:%M')}"` range
strings of lines 115–117. -/
def fmtRange (a b : Int) : String :=
  fmtHM a ++ " to " ++ fmtHM b

/-- `tz.localize(now.replace(hour=h, minute=0, second=0, microsecond=0))`
followed by `.astimezone(pytz.UTC)` (lines 89–100): with the shared
reference date on day `d` and the zone modelled by its fixed UTC offset
`off` in minutes, the UTC instant in minutes. -/
def localized_utc (d : Int) (h : Nat) (off : Int) : Int :=
  d * 1440 + (h : Int) * 60 - off

/-- `find_best_talk_time` (lines 78–123) after the two countries have
been resolved to zones (lines 82–83): `offset1`/`offset2` are the two
zones' fixed UTC offsets in minutes at the reference date, `d` the day
index of the single `datetime.now()` of line 86. The
`sleep_hours1`/`sleep_hours2` parameters mirror the Python signature;
the body never reads them (only `wake_hours1`/`wake_hours2` are
indexed). -/
def find_best_talk_time (d : Int) (offset1 offset2 : Int)
    (wake_hours1 sleep_hours1 wake_hours2 sleep_hours2 : Nat × Nat) :
    OverlapResult :=
  let wake_start1_utc := localized_utc d wake_hours1.1 offset1
  let wake_end1_utc := localized_utc d wake_hours1.2 offset1
  let wake_start2_utc := localized_utc d wake_hours2.1 offset2
  let wake_end2_utc := localized_utc d wake_hours2.2 offset2
  let overlap_start := max wake_start1_utc wake_start2_utc
  let overlap_end := min wake_end1_utc wake_end2_utc
  if overlap_start < overlap_end then
    OverlapResult.success
      (fmtRange (overlap_start + offset1) (overlap_end + offset1))
      (fmtRange (overlap_start + offset2) (overlap_end + offset2))
      (fmtRange overlap_start overlap_end)
  else
    OverlapResult.error no_overlap_message

/-- Spec-side formatting (§4.2 step 5): a zero-padded two-digit decimal
field, written independently of `pad2` (drop the leading `1` of
`n + 100`). -/
def spec_pad2 (n : Nat) : String :=
  String.mk ((Nat.toDigits 10 (n + 100)).drop 1)

/-- Spec-side `HH:MM` (24-hour, zero-padded, no date component) of an
instant in minutes. -/
def spec_hhmm (m : Int) : String :=
  spec_pad2 ((m.emod 1440).toNat / 60) ++ ":" ++ spec_pad2 ((m.emod 1440).toNat % 60)

/-- Spec-side `HH:MM to HH:MM` range string. -/
def spec_range (s e : Int) : String :=
  spec_hhmm s ++ " to " ++ spec_hhmm e

/-- `computeOverlap` written from the spec's words (§4.2): anchor both
windows to the shared reference date, build the four zoned wake-start /
wake-end timestamps, convert to UTC, intersect with
`overlapStart = max(starts)`, `overlapEnd = min(ends)`; on
`overlapStart < overlapEnd` succeed with the interval rendered in
zoneA's local time, zoneB's local time and UTC, else return the
NoOverlap variant with the fixed advisory message. -/
def computeOverlap (d : Int) (zoneA zoneB : Int) (winA winB : Nat × Nat) :
    OverlapResult :=
  let wakeStartA := d * 1440 + (winA.1 : Int) * 60 - zoneA
  let wakeEndA := d * 1440 + (winA.2 : Int) * 60 - zoneA
  let wakeStartB := d * 1440 + (winB.1 : Int) * 60 - zoneB
  let wakeEndB := d * 1440 + (winB.2 : Int) * 60 - zoneB
  let overlapStart := max wakeStartA wakeStartB
  let overlapEnd := min wakeEndA wakeEndB
  if overlapStart < overlapEnd then
    OverlapResult.success
      (spec_range (overlapStart + zoneA) (overlapEnd + zoneA))
      (spec_range (overlapStart + zoneB) (overlapEnd + zoneB))
      (spec_range overlapStart overlapEnd)
  else
    OverlapResult.error no_overlap_message

/-- Swap the two parties' local-time fields of a result. -/
def swap_parties : OverlapResult → OverlapResult
  | OverlapResult.success a b u => OverlapResult.success b a u
  | OverlapResult.error m => OverlapResult.error m

/-- The claimed local-range rendering of a whole-hour window bound. -/
def hour_str (h : Nat) : String :=
  pad2 h ++ ":00"

/-- Python regular-expression metacharacters (`re` special characters).
A pattern containing none of them is matched by `re.search` exactly as a
literal substring. -/
def isMeta (c : Char) : Bool :=
  c ∈ ['.', '^', '$', '*', '+', '?', '{', '}', '[', ']', '(', ')', '|', '\\']

/-- One anchored step of Python `re` matching with `re.IGNORECASE`, for
patterns in the literal-and-dot fragment: `.` matches any character
except a newline, any other pattern character matches itself
case-insensitively. -/
def matchHere : List Char → List Char → Bool
  | [], _ => true
  | _ :: _, [] => false
  | p :: ps, c :: cs =>
    (if p = '.' then c != '\n' else p.toLower == c.toLower) && matchHere ps cs

/-- `re.search` of a literal-and-dot pattern: the anchored match is tried
at every start position of the subject. -/
def searchFrom : List Char → List Char → Bool
  | pat, [] => matchHere pat []
  | pat, c :: cs => matchHere pat (c :: cs) || searchFrom pat cs

/-- The line-34 filter `series.str.contains(country_name, case=False,
na=False)` applied to one name under its actual pandas semantics: the
query is compiled as a case-insensitive regular expression and searched
in the name (`regex=True` is the default). Modelled for queries in the
literal-and-dot fragment. -/
def reSearch (name country_name : String) : Bool :=
  searchFrom country_name.data name.data

/-- `get_timezone` (lines 30–76) once more, with the row filter of line
34 under the regex semantics of `str.contains` modelled by `reSearch`;
everything after the filter is as in `get_timezone`. -/
def get_timezone_re (countries_data : Option (List CountryRecord))
    (country_name : String) : Except PyError String :=
  match countries_data with
  | none => Except.error (PyError.keyError "name")
  | some recs =>
    match recs.filter (fun r => reSearch r.name country_name) with
    | [] => Except.error (PyError.valueError (not_found_message country_name))
    | r :: _ =>
      match r.timezones with
      | [] => Except.error (PyError.indexError 0)
      | tz :: _ => Except.ok ((lookupOffset utc_to_iana tz).getD tz)

lemma str_colon00 (x : String) : x ++ ":" ++ pad2 0 = x ++ ":00" := by
  have h0 : pad2 0 = "00" := rfl
  have h1 : (":" ++ "00" : String) = ":00" := rfl
  rw [h0, String.append_assoc, h1]

lemma int_emod_day (d x : Int) (h0 : 0 ≤ x) (h1 : x < 1440) :
    (d * 1440 + x).emod 1440 = x := by
  rw [Int.add_comm]
  show (x + d * 1440) % 1440 = x
  rw [Int.add_mul_emod_self]
  exact Int.emod_eq_of_lt h0 h1

lemma fmtHM_whole_hour (d : Int) (h : Nat) (hh : h ≤ 23) :
    fmtHM (d * 1440 + (h : Int) * 60) = pad2 h ++ ":" ++ pad2 0 := by
  unfold fmtHM
  have h0 : (0 : Int) ≤ (h : Int) * 60 := by positivity
  have h1 : (h : Int) * 60 < 1440 := by
    have : (h : Int) ≤ 23 := by exact_mod_cast hh
    omega
  rw [int_emod_day _ _ h0 h1]
  have h2 : ((h : Int) * 60).toNat = h * 60 := by
    rw [show (h : Int) * 60 = ((h * 60 : Nat) : Int) by push_cast; ring, Int.toNat_natCast]
  rw [h2, Nat.mul_div_cancel _ (by norm_num), Nat.mul_mod_left]

/-- C7: overlap computation is symmetric — swapping the two zones and the
two windows (same reference date) yields the same UTC interval and the
same Success/NoOverlap outcome, with the two parties' local-time fields
swapped. -/
theorem find_best_talk_time_symm (d o1 o2 : Int) (w1 s1 w2 s2 : Nat × Nat) :
    find_best_talk_time d o1 o2 w1 s1 w2 s2 =
      swap_parties (find_best_talk_time d o2 o1 w2 s2 w1 s1) := by
  simp only [find_best_talk_time]
  rw [max_comm (localized_utc d w2.1 o2) (localized_utc d w1.1 o1),
      min_comm (localized_utc d w2.2 o2) (localized_utc d w1.2 o1)]
  by_cases h : max (localized_utc d w1.1 o1) (localized_utc d w2.1 o2) <
      min (localized_utc d w1.2 o1) (localized_utc d w2.2 o2)
  · rw [if_pos h, if_pos h]; rfl
  · rw [if_neg h, if_neg h]; rfl

/-- C9: the result of `find_best_talk_time` does not depend on its
`sleep_hours1` and `sleep_hours2` parameters — only the two wake-hours
tuples are ever read. -/
theorem find_best_talk_time_ignores_sleep_hours (d o1 o2 : Int)
    (w1 w2 s1 s1' s2 s2' : Nat × Nat) :
    find_best_talk_time d o1 o2 w1 s1 w2 s2 =
      find_best_talk_time d o1 o2 w1 s1' w2 s2' := rfl

/-- C10: when either person's wake/sleep pair has equal components, the
awake window is empty and the result is always the NoOverlap variant. -/
theorem find_best_talk_time_empty_window (d o1 o2 : Int)
    (w1 s1 w2 s2 : Nat × Nat) (h : w1.1 = w1.2 ∨ w2.1 = w2.2) :
    find_best_talk_time d o1 o2 w1 s1 w2 s2 =
      OverlapResult.error no_overlap_message := by
  have hnot : ¬ max (localized_utc d w1.1 o1) (localized_utc d w2.1 o2) <
      min (localized_utc d w1.2 o1) (localized_utc d w2.2 o2) := by
    rcases h with h | h
    · rw [h]
      exact not_lt.mpr (le_trans (min_le_left _ _) (le_max_left _ _))
    · rw [h]
      exact not_lt.mpr (le_trans (min_le_right _ _) (le_max_right _ _))
  simp only [find_best_talk_time]
  rw [if_neg hnot]

/-- C10 witness: an empty window for person 1 forces NoOverlap. -/
theorem find_best_talk_time_empty_window_witness :
    find_best_talk_time 0 0 0 (5, 5) (0, 0) (3, 9) (0, 0) =
      OverlapResult.error no_overlap_message :=
  find_best_talk_time_empty_window 0 0 0 (5, 5) (0, 0) (3, 9) (0, 0) (Or.inl rfl)

/-- C8 counterexample: with zoneA = zoneB = Asia/Kolkata (UTC offset
+05:30, i.e. 330 minutes) and the identical window 7–23 for both
persons, the two local representations equal the input window but the
UTC representation is "01:30 to 17:30", not "07:00 to 23:00" — so the
overlap does not equal the input window in each of the three
representations. -/
theorem find_best_talk_time_same_zone_utc_shifted :
    find_best_talk_time 0 330 330 (7, 23) (7, 23) (7, 23) (7, 23) =
      OverlapResult.success "07:00 to 23:00" "07:00 to 23:00" "01:30 to 17:30" ∧
    ("01:30 to 17:30" : String) ≠ "07:00 to 23:00" := by
  constructor
  · decide
  · decide

/-- C8 (amended): with identical windows, equal zones and
`wake_hour < sleep_hour ≤ 23`, the result is Success; both local-time
representations equal the input window rendered `wake:00 to sleep:00`,
and the UTC representation is that window shifted by the zone's UTC
offset. -/
theorem find_best_talk_time_same_zone (d off : Int) (w s : Nat)
    (hws : w < s) (hs : s ≤ 23) :
    find_best_talk_time d off off (w, s) (w, s) (w, s) (w, s) =
      OverlapResult.success (hour_str w ++ " to " ++ hour_str s)
        (hour_str w ++ " to " ++ hour_str s)
        (fmtRange (d * 1440 + (w : Int) * 60 - off)
          (d * 1440 + (s : Int) * 60 - off)) := by
  have hw : w ≤ 23 := le_of_lt (lt_of_lt_of_le hws hs)
  simp only [find_best_talk_time, localized_utc, max_self, min_self]
  have hlt : d * 1440 + (w : Int) * 60 - off < d * 1440 + (s : Int) * 60 - off := by
    have : (w : Int) < (s : Int) := by exact_mod_cast hws
    omega
  rw [if_pos hlt]
  have hloc : ∀ h : Nat, h ≤ 23 →
      fmtHM (d * 1440 + (h : Int) * 60 - off + off) = hour_str h := by
    intro h hh
    rw [show d * 1440 + (h : Int) * 60 - off + off = d * 1440 + (h : Int) * 60 by ring,
       fmtHM_whole_hour d h hh]
    unfold hour_str
    exact str_colon00 (pad2 h)
  show OverlapResult.success
      (fmtRange (d * 1440 + (w : Int) * 60 - off + off)
        (d * 1440 + (s : Int) * 60 - off + off)) _ _ = _
  unfold fmtRange
  rw [hloc w hw, hloc s hs]

/-- C8 witness: the amended statement at Asia/Kolkata (offset 330) with
window 7–23. -/
theorem find_best_talk_time_same_zone_witness :
    find_best_talk_time 0 330 330 (7, 23) (7, 23) (7, 23) (7, 23) =
      OverlapResult.success (hour_str 7 ++ " to " ++ hour_str 23)
        (hour_str 7 ++ " to " ++ hour_str 23)
        (fmtRange (0 * 1440 + ((7 : Nat) : Int) * 60 - 330)
          (0 * 1440 + ((23 : Nat) : Int) * 60 - 330)) :=
  find_best_talk_time_same_zone 0 330 7 23 (by decide) (by decide)

lemma containsCI_empty_pattern (n : String) : containsCI n "" = true := by
  unfold containsCI
  have h : ("" : String).data = [] := rfl
  rw [h]
  exact decide_eq_true List.nil_infix

lemma lookupOffset_eq_none (table : List (String × String)) (tz : String)
    (h : ∀ p ∈ table, startswith tz p.1 = false) :
    lookupOffset table tz = none := by
  induction table with
  | nil => rfl
  | cons p rest ih =>
    obtain ⟨k, z⟩ := p
    have hk : startswith tz k = false := h (k, z) (List.mem_cons_self _ _)
    simp only [lookupOffset, hk, Bool.false_eq_true, if_false]
    exact ih fun p hp => h p (List.mem_cons_of_mem _ hp)

lemma lookupOffset_first_key (table : List (String × String)) (tz k z : String)
    (hmem : (k, z) ∈ table)
    (hiff : ∀ p ∈ table, (startswith tz p.1 = true ↔ p.1 = k))
    (huniq : ∀ p ∈ table, p.1 = k → p.2 = z) :
    lookupOffset table tz = some z := by
  induction table with
  | nil => simp at hmem
  | cons p rest ih =>
    obtain ⟨k', z'⟩ := p
    by_cases hs : startswith tz k' = true
    · have hz' : z' = z :=
        huniq (k', z') (List.mem_cons_self _ _)
          ((hiff (k', z') (List.mem_cons_self _ _)).mp hs)
      simp only [lookupOffset, hs, if_true, hz']
    · have hk'ne : k' ≠ k := fun he =>
        hs ((hiff (k', z') (List.mem_cons_self _ _)).mpr he)
      have hmem' : (k, z) ∈ rest := by
        rcases List.mem_cons.mp hmem with he | h
        · exact absurd (congrArg Prod.fst he.symm) hk'ne
        · exact h
      simp only [lookupOffset, hs, Bool.false_eq_true, if_false]
      exact ih hmem'
        (fun p hp => hiff p (List.mem_cons_of_mem _ hp))
        (fun p hp => huniq p (List.mem_cons_of_mem _ hp))

lemma startswith_key_append_iff (k s k' : String)
    (hk : k.length = 9) (hk' : k'.length = 9) :
    startswith (k ++ s) k' = true ↔ k' = k := by
  unfold startswith
  rw [List.isPrefixOf_iff_prefix]
  constructor
  · intro hpre
    rw [List.prefix_iff_eq_take, String.data_append] at hpre
    have hlen : k'.data.length = k.data.length := by
      have h1 : k'.data.length = 9 := hk'
      have h2 : k.data.length = 9 := hk
      rw [h1, h2]
    rw [hlen, List.take_left] at hpre
    exact String.ext hpre
  · intro he
    rw [he, String.data_append]
    exact List.prefix_append k.data s.data

lemma utc_to_iana_key_lengths : ∀ p ∈ utc_to_iana, p.1.length = 9 := by decide

lemma utc_to_iana_functional :
    ∀ p ∈ utc_to_iana, ∀ q ∈ utc_to_iana, p.1 = q.1 → p.2 = q.2 := by decide

/-- Characterization of `get_timezone` over the substring-matching
filter `containsCI`: no match in any record name gives exactly the
NotFoundError naming the query, and at least one match never does. -/
theorem get_timezone_substr_characterization
    (recs : List CountryRecord) (q : String) :
    ((∀ r ∈ recs, containsCI r.name q = false) →
      get_timezone (some recs) q =
        Except.error (PyError.valueError (not_found_message q))) ∧
    ((∃ r ∈ recs, containsCI r.name q = true) →
      is_not_found (get_timezone (some recs) q) = false) := by
  constructor
  · intro hall
    have hfil : recs.filter (fun r => containsCI r.name q) = [] := by
      rw [List.filter_eq_nil_iff]
      intro a ha
      simp [hall a ha]
    simp only [get_timezone, hfil]
  · rintro ⟨r, hr, hc⟩
    have hmemf : r ∈ recs.filter (fun r => containsCI r.name q) :=
      List.mem_filter.mpr ⟨hr, hc⟩
    rcases hf : recs.filter (fun r => containsCI r.name q) with _ | ⟨r0, rest⟩
    · rw [hf] at hmemf
      simp at hmemf
    · simp only [get_timezone, hf]
      rcases r0.timezones with _ | ⟨tz, more⟩ <;> rfl

lemma matchHere_literal (ps : List Char) (h : '.' ∉ ps) :
    ∀ cs : List Char,
      matchHere ps cs = (ps.map Char.toLower).isPrefixOf (cs.map Char.toLower) := by
  induction ps with
  | nil => intro cs; cases cs <;> rfl
  | cons p ps ih =>
    have hp : p ≠ '.' := fun he => h (he ▸ List.mem_cons_self p ps)
    have hps : '.' ∉ ps := fun hm => h (List.mem_cons_of_mem _ hm)
    intro cs
    cases cs with
    | nil => rfl
    | cons c cs =>
      simp only [matchHere, List.map, List.isPrefixOf, if_neg hp, ih hps cs]

lemma searchFrom_literal (ps : List Char) (h : '.' ∉ ps) :
    ∀ cs : List Char, (searchFrom ps cs = true ↔
      (ps.map Char.toLower) <:+: (cs.map Char.toLower)) := by
  intro cs
  induction cs with
  | nil =>
    show matchHere ps [] = true ↔ _
    rw [matchHere_literal ps h [], show List.map Char.toLower [] = [] from rfl,
      List.isPrefixOf_iff_prefix, List.prefix_nil, List.infix_nil]
  | cons c cs ih =>
    show (matchHere ps (c :: cs) || searchFrom ps cs) = true ↔ _
    rw [Bool.or_eq_true, matchHere_literal ps h (c :: cs),
      List.isPrefixOf_iff_prefix, ih, List.map]
    exact (List.infix_cons_iff).symm

lemma reSearch_literal (name q : String) (h : '.' ∉ q.data) :
    reSearch name q = containsCI name q := by
  unfold reSearch containsCI
  rcases hb : searchFrom q.data name.data with _ | _
  · have hn : ¬ (q.data.map Char.toLower <:+: name.data.map Char.toLower) := by
      rw [← searchFrom_literal q.data h name.data, hb]
      simp
    rw [decide_eq_false hn]
  · have hy : q.data.map Char.toLower <:+: name.data.map Char.toLower :=
      (searchFrom_literal q.data h name.data).mp hb
    rw [decide_eq_true hy]

/-- C2 counterexample: the query "." occurs in no record's name as a
case-insensitive substring, yet under the code's regex semantics of
`str.contains` it matches every name (the dot metacharacter), so
resolution succeeds instead of failing with NotFoundError. -/
theorem get_timezone_regex_metachar :
    get_timezone_re (some [⟨"France", ["UTC+01:00"]⟩]) "." =
      Except.ok "Europe/Paris" ∧
    containsCI "France" "." = false := by
  constructor
  · decide
  · decide

/-- C2 (amended): for literal queries — queries containing no regular
expression metacharacter, where `str.contains` degenerates to
case-insensitive substring search — no substring occurrence in any
record name gives exactly the NotFoundError naming the country, and at
least one matching record never gives that error; a metacharacter query
is compiled as a regex instead and can match records it does not occur
in as a substring. -/
theorem get_timezone_re_literal_characterization
    (recs : List CountryRecord) (q : String)
    (hlit : ∀ c ∈ q.data, isMeta c = false) :
    ((∀ r ∈ recs, containsCI r.name q = false) →
      get_timezone_re (some recs) q =
        Except.error (PyError.valueError (not_found_message q))) ∧
    ((∃ r ∈ recs, containsCI r.name q = true) →
      is_not_found (get_timezone_re (some recs) q) = false) := by
  have hdot : '.' ∉ q.data := fun hm => by
    have h := hlit '.' hm
    simp [isMeta] at h
  have hfe : recs.filter (fun r => reSearch r.name q) =
      recs.filter (fun r => containsCI r.name q) :=
    List.filter_congr fun r _ => reSearch_literal r.name q hdot
  have hsame : get_timezone_re (some recs) q = get_timezone (some recs) q := by
    simp only [get_timezone_re, get_timezone, hfe]
  rw [hsame]
  exact get_timezone_substr_characterization recs q

/-- C2 witness: the amended characterization at the one-record France
dataset, with a literal non-matching query and a literal matching
query. -/
theorem get_timezone_re_literal_characterization_witness :
    get_timezone_re (some [⟨"France", ["UTC+01:00"]⟩]) "zz" =
      Except.error (PyError.valueError (not_found_message "zz")) ∧
    is_not_found (get_timezone_re (some [⟨"France", ["UTC+01:00"]⟩]) "fran") = false :=
  ⟨(get_timezone_re_literal_characterization [⟨"France", ["UTC+01:00"]⟩] "zz"
      (by decide)).1 (by decide),
   (get_timezone_re_literal_characterization [⟨"France", ["UTC+01:00"]⟩] "fran"
      (by decide)).2 ⟨⟨"France", ["UTC+01:00"]⟩, by decide, by decide⟩⟩

/-- C4: an offset label that starts with no key of the table is passed
through verbatim as a degraded zone id, with no error. -/
theorem get_timezone_unmapped_offset_passthrough (name q tz : String)
    (hmatch : containsCI name q = true)
    (hnokey : ∀ p ∈ utc_to_iana, startswith tz p.1 = false) :
    get_timezone (some [⟨name, [tz]⟩]) q = Except.ok tz := by
  simp only [get_timezone, List.filter, hmatch]
  rw [lookupOffset_eq_none utc_to_iana tz hnokey]
  rfl

/-- C4 witness: Nepal's +05:45 label is not in the table and is returned
unchanged. -/
theorem get_timezone_unmapped_offset_passthrough_witness :
    get_timezone (some [⟨"Nepal", ["UTC+05:45"]⟩]) "nep" =
      Except.ok "UTC+05:45" :=
  get_timezone_unmapped_offset_passthrough "Nepal" "nep" "UTC+05:45"
    (by decide) (by decide)

/-- C3 counterexample: the offset-to-zone table has 27 entries, not 25. -/
theorem utc_to_iana_not_25_entries :
    utc_to_iana.length = 27 ∧ utc_to_iana.length ≠ 25 := by
  constructor
  · decide
  · decide

/-- C3 (amended): the table has exactly 27 entries (the 25 standard
whole-hour offsets from -12:00 to +12:00 plus the +05:30 and +09:30
half-hour cases); resolving a country whose sole stored label is exactly
a table key returns that key's zone, and — the starts-with rule — so
does resolving a country whose sole label is a table key followed by any
trailing annotation. -/
theorem utc_to_iana_resolution :
    utc_to_iana.length = 27 ∧
    (∀ p ∈ utc_to_iana, ∀ name q : String, containsCI name q = true →
      get_timezone (some [⟨name, [p.1]⟩]) q = Except.ok p.2) ∧
    (∀ p ∈ utc_to_iana, ∀ trailing name q : String, containsCI name q = true →
      get_timezone (some [⟨name, [p.1 ++ trailing]⟩]) q = Except.ok p.2) := by
  have hmain : ∀ p ∈ utc_to_iana, ∀ trailing name q : String,
      containsCI name q = true →
      get_timezone (some [⟨name, [p.1 ++ trailing]⟩]) q = Except.ok p.2 := by
    intro p hp trailing name q hq
    obtain ⟨k, z⟩ := p
    simp only [get_timezone, List.filter, hq]
    rw [lookupOffset_first_key utc_to_iana (k ++ trailing) k z hp
      (fun p' hp' => startswith_key_append_iff k trailing p'.1
        (utc_to_iana_key_lengths (k, z) hp) (utc_to_iana_key_lengths p' hp'))
      (fun p' hp' he => utc_to_iana_functional p' hp' (k, z) hp he)]
    rfl
  refine ⟨by decide, ?_, hmain⟩
  intro p hp name q hq
  have h := hmain p hp "" name q hq
  rwa [String.append_empty] at h

/-- C3 witness: a key with a trailing annotation still resolves to the
key's zone. -/
theorem utc_to_iana_resolution_witness :
    get_timezone (some [⟨"India", ["UTC+05:30" ++ " (IST)"]⟩]) "ind" =
      Except.ok "Asia/Kolkata" :=
  utc_to_iana_resolution.2.2 ("UTC+05:30", "Asia/Kolkata") (by decide)
    " (IST)" "India" "ind" (by decide)

/-- C5: after a failed dataset load the frame has no `name` column, so
every subsequent `get_timezone` call raises `KeyError('name')` — not the
NotFoundError the spec promises. -/
theorem get_timezone_after_failed_load (q : String) :
    get_timezone (load_country_data none) q =
      Except.error (PyError.keyError "name") := rfl

/-- C6 counterexample: on a non-empty dataset the empty query matches
every record (the empty string is a substring of every name), so
`resolve("")` succeeds instead of failing with NotFoundError. -/
theorem get_timezone_empty_query_succeeds :
    get_timezone (some [⟨"France", ["UTC+01:00"]⟩]) "" =
      Except.ok "Europe/Paris" := by decide

/-- C6 (amended): `resolve("")` fails with NotFoundError exactly when
the loaded dataset is empty; on a non-empty dataset the empty query
matches every record and resolution proceeds with the first record. -/
theorem get_timezone_empty_query_iff_empty_dataset
    (recs : List CountryRecord) :
    is_not_found (get_timezone (some recs) "") = true ↔ recs = [] := by
  cases recs with
  | nil => simp [get_timezone, is_not_found]
  | cons r rest =>
    have hc : containsCI r.name "" = true := containsCI_empty_pattern r.name
    simp only [get_timezone, List.filter, hc]
    rcases htz : r.timezones with _ | ⟨tz, more⟩ <;>
      simp [is_not_found]

/-- C6 witness: on the empty dataset the empty query does fail with the
NotFoundError. -/
theorem get_timezone_empty_query_iff_empty_dataset_witness :
    is_not_found (get_timezone (some ([] : List CountryRecord)) "") = true :=
  (get_timezone_empty_query_iff_empty_dataset []).mpr rfl

lemma pad2_eq_spec_pad2 : ∀ n : Nat, n < 60 → pad2 n = spec_pad2 n := by decide

lemma fmtHM_eq_spec_hhmm (m : Int) : fmtHM m = spec_hhmm m := by
  unfold fmtHM spec_hhmm
  have h0 : 0 ≤ m.emod 1440 := Int.emod_nonneg m (by norm_num)
  have hlt : m.emod 1440 < 1440 := Int.emod_lt_of_pos m (by norm_num)
  have hnat : (m.emod 1440).toNat < 1440 := by omega
  have h1 : (m.emod 1440).toNat / 60 < 60 :=
    Nat.div_lt_of_lt_mul (by omega)
  have h2 : (m.emod 1440).toNat % 60 < 60 := Nat.mod_lt _ (by norm_num)
  rw [pad2_eq_spec_pad2 _ h1, pad2_eq_spec_pad2 _ h2]

lemma fmtRange_eq_spec_range (a b : Int) : fmtRange a b = spec_range a b := by
  unfold fmtRange spec_range
  rw [fmtHM_eq_spec_hhmm, fmtHM_eq_spec_hhmm]

/-- C1: the calculator agrees with the spec's `computeOverlap` — the two
wake windows anchored to the shared reference date are converted to UTC,
intersected with `max` of the starts and `min` of the ends, and the call
returns the Success variant with the three zero-padded `HH:MM to HH:MM`
ranges exactly when `overlapStart < overlapEnd`, and otherwise the
NoOverlap variant with the fixed advisory message (a returned value,
never an exception in the embedding's total function). -/
theorem find_best_talk_time_eq_computeOverlap (d o1 o2 : Int)
    (w1 s1 w2 s2 : Nat × Nat) :
    find_best_talk_time d o1 o2 w1 s1 w2 s2 = computeOverlap d o1 o2 w1 w2 ∧
    ((∃ a b u, find_best_talk_time d o1 o2 w1 s1 w2 s2 =
        OverlapResult.success a b u) ↔
      max (localized_utc d w1.1 o1) (localized_utc d w2.1 o2) <
        min (localized_utc d w1.2 o1) (localized_utc d w2.2 o2)) := by
  constructor
  · simp only [find_best_talk_time, computeOverlap, localized_utc]
    split
    · rw [fmtRange_eq_spec_range, fmtRange_eq_spec_range, fmtRange_eq_spec_range]
    · rfl
  · simp only [find_best_talk_time]
    split
    · case isTrue h => exact iff_of_true ⟨_, _, _, rfl⟩ h
    · case isFalse h => exact iff_of_false (by simp) h

/-- C1 witness: the India (UTC+05:30) / Los Angeles (UTC-08:00) scenario
with windows 7–23. -/
theorem find_best_talk_time_eq_computeOverlap_witness :
    find_best_talk_time 0 330 (-480) (7, 23) (7, 23) (7, 23) (7, 23) =
      computeOverlap 0 330 (-480) (7, 23) (7, 23) :=
  (find_best_talk_time_eq_computeOverlap 0 330 (-480)
    (7, 23) (7, 23) (7, 23) (7, 23)).1
